import Mathlib

/-!
Shallow embedding of the PDF_QA_Bot gateway (Express/Node) and its frontend,
together with theorems settling the specification claims.

The gateway routes are embedded from the canonical server copy
(`src/frontend/src/components/DocumentUploader.jsx`, second document,
lines 75-362), the partially merged copy in the same file (lines 362-768,
for `/clear-history`, the session-history `/ask` and the conflicted
`/upload` error branch), the rate-limit middleware (`src/unnamed/part_004`),
and the React frontend (`src/frontend/src/App.js`, `src/unnamed/part_001`).
-/

namespace PdfQaBot

/-- A chat message as stored in the server-side session:
`{ role, content }` with role `"user"` or `"assistant"`. -/
structure Msg where
  role : String
  content : String
deriving Repr, DecidableEq

/-- Server-side session state bound to the caller's cookie:
`req.session.currentSessionId` and `req.session.chatHistory`. -/
structure Sess where
  currentSessionId : Option String
  chatHistory : List Msg
deriving Repr, DecidableEq

/-- An HTTP response sent to the client: status code plus a JSON object
body modelled as a list of string-valued fields. -/
structure HttpResponse where
  status : Nat
  body : List (String × String)
deriving Repr, DecidableEq

/-- Path separator (`path.sep` on the deployment platform). -/
def pathSep : String := "/"

/-- The containment test from the `/upload` handler (line 210 of the
canonical copy): `filePath.startsWith(uploadDirResolved + path.sep)
|| filePath == uploadDirResolved` (the handler rejects its negation). -/
def insideUploadDir (uploadDirResolved filePath : String) : Bool :=
  List.isPrefixOf (uploadDirResolved ++ pathSep).data filePath.data
    || filePath = uploadDirResolved

/-- Data returned by the upstream RAG service for a successful upload:
`response.data.message` and `response.data.session_id`. -/
structure UploadData where
  message : String
  session_id : String
deriving Repr, DecidableEq

/-- How the `try` block of the `/upload` handler can fail: axios throws on a
non-2xx upstream response (carrying the upstream error body), on a timeout,
or some other exception is thrown mid-handler (e.g. while opening the
file read stream). All are caught by the same `catch`. -/
inductive TryFailure where
  | upstreamError : String → TryFailure
  | timeout : TryFailure
  | thrown : String → TryFailure
deriving Repr, DecidableEq

/-- Outcome of the `try` block: the upstream call resolved with data, or an
exception was thrown somewhere in the block. -/
inductive TryOutcome where
  | ok : UploadData → TryOutcome
  | fail : TryFailure → TryOutcome
deriving Repr, DecidableEq

/-- The detail string the handler logs for a failure
(`err.response?.data || err.message`). -/
def TryFailure.detail : TryFailure → String
  | .upstreamError body => body
  | .timeout => "timeout of 180000ms exceeded"
  | .thrown msg => msg

/-- Whether the failure happened at the upstream HTTP call (as opposed to an
exception thrown before it). -/
def TryFailure.atUpstream : TryFailure → Bool
  | .upstreamError _ => true
  | .timeout => true
  | .thrown _ => false

/-- The request as seen by the `/upload` handler: `req.file.path` resolved to
an absolute path by `path.resolve`, or `none` when no file was uploaded. -/
structure UploadReq where
  file : Option String
deriving Repr, DecidableEq

/-- Everything observable about one run of the `/upload` handler. -/
structure UploadOutcome where
  response : HttpResponse
  upstreamCalled : Bool
  streamDestroyed : Bool
  unlinked : List String
  warnings : List String
  errorsLogged : List String
  session : Sess
deriving Repr, DecidableEq

/-- The canonical `/upload` handler (DocumentUploader.jsx lines 200-262).
`unlinkErr` is the error code, if any, with which the asynchronous
`fs.unlink` callback in the `finally` block fires; its callback only logs,
so it cannot alter the response. -/
def uploadHandler (uploadDirResolved : String) (req : UploadReq) (sess : Sess)
    (t : TryOutcome) (unlinkErr : Option String) : UploadOutcome :=
  match req.file with
  | none =>
      { response := ⟨400, [("error", "No file uploaded.")]⟩
        upstreamCalled := false
        streamDestroyed := false
        unlinked := []
        warnings := []
        errorsLogged := []
        session := sess }
  | some filePath =>
      if insideUploadDir uploadDirResolved filePath then
        let cleanupWarnings :=
          match unlinkErr with
          | some code =>
              if code = "ENOENT" then []
              else ["[/upload] Failed to delete file: " ++ code]
          | none => []
        match t with
        | .ok d =>
            { response := ⟨200, [("message", d.message), ("session_id", d.session_id)]⟩
              upstreamCalled := true
              streamDestroyed := true
              unlinked := [filePath]
              warnings := cleanupWarnings
              errorsLogged := []
              session := { currentSessionId := some d.session_id, chatHistory := [] } }
        | .fail f =>
            { response := ⟨500, [("error", "Failed to process file. Please try again.")]⟩
              upstreamCalled := f.atUpstream
              streamDestroyed := true
              unlinked := [filePath]
              warnings := cleanupWarnings
              errorsLogged := ["[/upload] File processing failed: " ++ f.detail]
              session := sess }
      else
        { response := ⟨400, [("error", "Invalid file path.")]⟩
          upstreamCalled := false
          streamDestroyed := false
          unlinked := []
          warnings := []
          errorsLogged := ["[/upload] Path traversal attempt detected: " ++ filePath]
          session := sess }

/-- Outcome of a proxied axios call: it resolves with JSON data (2xx) or
throws (non-2xx response, network failure or timeout); the string argument of
`failure` is the logged detail `err.response?.data || err.message`. -/
inductive Upstream (α : Type) where
  | ok : α → Upstream α
  | failure : String → Upstream α
deriving Repr, DecidableEq

/-- The `/ask` request body fields `question` and `session_ids`;
`none` models an absent field. -/
structure AskReq where
  question : Option String
  session_ids : Option (List String)
deriving Repr, DecidableEq

/-- JavaScript falsiness of `req.body.question` as tested by `!question`:
absent (`undefined`/`null`) or the empty string. -/
def questionFalsy (q : Option String) : Bool :=
  match q with
  | none => true
  | some s => s = ""

/-- The check `!session_ids || session_ids.length === 0`. -/
def idsMissing (ids : Option (List String)) : Bool :=
  match ids with
  | none => true
  | some l => l.length = 0

/-- Everything observable about one run of the canonical `/ask` handler. -/
structure AskOutcome where
  response : HttpResponse
  upstreamCalled : Bool
  forwardedQuestion : Option String
  forwardedIds : Option (List String)
  errorsLogged : List String
deriving Repr, DecidableEq

/-- The canonical `/ask` handler (DocumentUploader.jsx lines 272-294):
validate `question` and `session_ids`, then forward
`{question, session_ids}` and relay `response.data` unchanged, or answer
500 with a generic message on upstream failure. -/
def askHandler (req : AskReq) (u : Upstream (List (String × String))) :
    AskOutcome :=
  if questionFalsy req.question then
    { response := ⟨400, [("error", "Question is required.")]⟩
      upstreamCalled := false
      forwardedQuestion := none
      forwardedIds := none
      errorsLogged := [] }
  else if idsMissing req.session_ids then
    { response := ⟨400, [("error", "At least one document (session_id) is required.")]⟩
      upstreamCalled := false
      forwardedQuestion := none
      forwardedIds := none
      errorsLogged := [] }
  else
    match u with
    | .ok data =>
        { response := ⟨200, data⟩
          upstreamCalled := true
          forwardedQuestion := req.question
          forwardedIds := req.session_ids
          errorsLogged := [] }
    | .failure detail =>
        { response := ⟨500, [("error", "Failed to process question. Please try again.")]⟩
          upstreamCalled := true
          forwardedQuestion := req.question
          forwardedIds := req.session_ids
          errorsLogged := ["[/ask] Question processing failed: " ++ detail] }

/-- The check `!session_ids || session_ids.length < 2` of `/compare`. -/
def idsFewerThanTwo (ids : Option (List String)) : Bool :=
  match ids with
  | none => true
  | some l => l.length < 2

/-- Everything observable about one run of the `/compare` handler. -/
structure CompareOutcome where
  response : HttpResponse
  upstreamCalled : Bool
  forwardedIds : Option (List String)
  errorsLogged : List String
deriving Repr, DecidableEq

/-- The `/compare` handler (DocumentUploader.jsx lines 329-348): require at
least two identifiers, forward `{session_ids}` and relay `response.data`
unchanged, or answer 500 with a generic message on upstream failure. -/
def compareHandler (ids : Option (List String))
    (u : Upstream (List (String × String))) : CompareOutcome :=
  if idsFewerThanTwo ids then
    { response := ⟨400, [("error", "At least 2 documents are required for comparison.")]⟩
      upstreamCalled := false
      forwardedIds := none
      errorsLogged := [] }
  else
    match u with
    | .ok data =>
        { response := ⟨200, data⟩
          upstreamCalled := true
          forwardedIds := ids
          errorsLogged := [] }
    | .failure detail =>
        { response := ⟨500, [("error", "Failed to compare documents. Please try again.")]⟩
          upstreamCalled := true
          forwardedIds := ids
          errorsLogged := ["[/compare] Comparison failed: " ++ detail] }

/-- The cookie-keyed server-side session store; express-session lazily
creates a fresh session per cookie, so the store is modelled as total. -/
def SessionStore : Type := String → Sess

/-- The `/clear-history` handler (merged copy, DocumentUploader.jsx lines
662-668): reset `req.session.chatHistory` of the calling cookie's session
only, then respond `200 {message: "History cleared"}`. -/
def clearHistoryHandler (store : SessionStore) (caller : String) :
    SessionStore × HttpResponse :=
  (fun c => if c = caller then { store c with chatHistory := [] } else store c,
   ⟨200, [("message", "History cleared")]⟩)

/-- Configuration of one fixed-window limiter as produced by `buildLimiter`
(`src/unnamed/part_004`): window length, per-IP maximum, client message. -/
structure LimiterConfig where
  windowMs : Nat
  max : Nat
  message : String
deriving Repr, DecidableEq

/-- Per-client fixed-window counter of express-rate-limit's memory store. -/
structure ClientWindow where
  hits : Nat
  resetTime : Nat
deriving Repr, DecidableEq

/-- What the limiter middleware does with one request: `status = none` passes
the request on to the route; `some 429` is `buildLimiter`'s custom handler
with its `Retry-After` header and `{error, message, retryAfter}` JSON body.
`standardHeaders: true` emits the RateLimit-* headers, `legacyHeaders:
false` suppresses the X-RateLimit-* ones. -/
structure LimiterDecision where
  status : Option Nat
  retryAfterHeader : Option Nat
  standardHeadersSent : Bool
  legacyHeadersSent : Bool
  bodyError : Option String
  bodyMessage : Option String
  bodyRetryAfter : Option Nat
deriving Repr, DecidableEq

/-- `Math.ceil(ms / 1000)` over naturals. -/
def ceilSeconds (ms : Nat) : Nat := (ms + 999) / 1000

/-- The client's window after the expiry check: a window whose reset time has
passed is replaced by a fresh one starting now. -/
def refreshWindow (cfg : LimiterConfig) (st : Option ClientWindow) (now : Nat) :
    ClientWindow :=
  match st with
  | some w => if now < w.resetTime then w else ⟨0, now + cfg.windowMs⟩
  | none => ⟨0, now + cfg.windowMs⟩

/-- One request through a `buildLimiter` limiter: the client's counter is
advanced and, once it exceeds `cfg.max`, the custom handler fires with
`retryAfterSeconds = Math.ceil(options.windowMs / 1000)` — computed from the
configured window length, not from the time left in the client's window. -/
def limiterStep (cfg : LimiterConfig) (st : Option ClientWindow) (now : Nat) :
    ClientWindow × LimiterDecision :=
  let w : ClientWindow :=
    ⟨(refreshWindow cfg st now).hits + 1, (refreshWindow cfg st now).resetTime⟩
  if w.hits ≤ cfg.max then
    (w, { status := none
          retryAfterHeader := none
          standardHeadersSent := true
          legacyHeadersSent := false
          bodyError := none
          bodyMessage := none
          bodyRetryAfter := none })
  else
    (w, { status := some 429
          retryAfterHeader := some (ceilSeconds cfg.windowMs)
          standardHeadersSent := true
          legacyHeadersSent := false
          bodyError := some "Too Many Requests"
          bodyMessage := some cfg.message
          bodyRetryAfter := some (ceilSeconds cfg.windowMs) })

/-- Seconds left in the client's current window — the quantity a
remaining-window `Retry-After` header would carry. -/
def remainingWindowSeconds (w : ClientWindow) (now : Nat) : Nat :=
  ceilSeconds (w.resetTime - now)

/-- `QUERY_WINDOW_MS` from the rate-limit middleware. -/
def QUERY_WINDOW_MS : Nat := 60 * 1000

/-- `ASK_LIMIT` from the rate-limit middleware. -/
def ASK_LIMIT : Nat := 20

/-- The `/ask` limiter of `src/unnamed/part_004`. -/
def askLimiterCfg : LimiterConfig :=
  ⟨QUERY_WINDOW_MS, ASK_LIMIT,
   "Query limit reached. You may ask up to 20 questions per minute."⟩

/-- How the conflicted `/upload` copy's `catch` classifies the caught error
(DocumentUploader.jsx lines 515-544): connection refused, multer size limit,
an upstream response body, or any other error message. -/
inductive CaughtErr where
  | connRefused : CaughtErr
  | fileTooLarge : CaughtErr
  | upstreamBody : String → CaughtErr
  | other : String → CaughtErr
deriving Repr, DecidableEq

/-- The conflicted `/upload` copy's error branch: `ECONNREFUSED` gets a 503
and `LIMIT_FILE_SIZE` a 413 with fixed texts; everything else gets a 500
whose body includes `details: err.response?.data || err.message` — the
upstream error body verbatim whenever one is present. -/
def conflictedUploadErrorResponse : CaughtErr → HttpResponse
  | .connRefused =>
      ⟨503, [("error", "RAG service unavailable"),
             ("details", "Please ensure the Python service is running on port 5000")]⟩
  | .fileTooLarge =>
      ⟨413, [("error", "File too large"), ("details", "Maximum file size is 10MB")]⟩
  | .upstreamBody data =>
      ⟨500, [("error", "PDF processing failed"), ("details", data)]⟩
  | .other msg =>
      ⟨500, [("error", "PDF processing failed"), ("details", msg)]⟩

/-- Upstream answer data of the session-history `/ask`: `response.data`
with its `answer` field. -/
structure AskData where
  answer : String
deriving Repr, DecidableEq

/-- Everything observable about one run of the merged-copy `/ask` handler,
which maintains the caller's server-side chat history. -/
structure AskSessionOutcome where
  response : HttpResponse
  upstreamCalled : Bool
  forwardedHistory : List Msg
  session : Sess
  errorsLogged : List String
deriving Repr, DecidableEq

/-- The merged-copy `/ask` handler (DocumentUploader.jsx lines 614-658):
after validation it pushes `{role:"user", content:question}` onto the
session's chat history, sends question, ids and that history upstream, and
on success pushes `{role:"assistant", content:answer}` and relays the data;
the `catch` answers 500, but the user entry pushed before the upstream call
stays in the session. -/
def askHandlerWithHistory (req : AskReq) (sess : Sess) (u : Upstream AskData) :
    AskSessionOutcome :=
  if questionFalsy req.question then
    ⟨⟨400, [("error", "Question is required.")]⟩, false, [], sess, []⟩
  else if idsMissing req.session_ids then
    ⟨⟨400, [("error", "At least one document (session_id) is required.")]⟩,
     false, [], sess, []⟩
  else
    let q := req.question.getD ""
    let pushed := sess.chatHistory ++ [⟨"user", q⟩]
    match u with
    | .ok d =>
        ⟨⟨200, [("answer", d.answer)]⟩, true, pushed,
         { sess with chatHistory := pushed ++ [⟨"assistant", d.answer⟩] }, []⟩
    | .failure detail =>
        ⟨⟨500, [("error", "Failed to process question. Please try again.")]⟩,
         true, pushed, { sess with chatHistory := pushed },
         ["[/ask] Question processing failed: " ++ detail]⟩

/-- `localStorage` key of the theme preference (`THEME_STORAGE_KEY`). -/
def THEME_STORAGE_KEY : String := "pdf-qa-bot-theme"

/-- A frontend chat message `{ role, text }`. -/
structure FrontMsg where
  role : String
  text : String
deriving Repr, DecidableEq

/-- A frontend document entry `{ name, session_id }`; the local object URL is
presentational only and omitted. -/
structure PdfRef where
  name : String
  session_id : String
deriving Repr, DecidableEq

/-- Values the frontend serializes into `localStorage`. -/
inductive StoredVal where
  | themeVal : Bool → StoredVal
  | chatVal : List FrontMsg → StoredVal
  | pdfsVal : List PdfRef → StoredVal
deriving Repr, DecidableEq

/-- Client-local storage, keyed by string. -/
def LocalStorage : Type := String → Option StoredVal

/-- `localStorage.setItem`. -/
def setItem (ls : LocalStorage) (k : String) (v : StoredVal) : LocalStorage :=
  fun key => if key = k then some v else ls key

/-- `localStorage.clear()`. -/
def clearAll : LocalStorage := fun _ => none

/-- `localStorage.getItem`. -/
def getItem (ls : LocalStorage) (k : String) : Option StoredVal := ls k

/-- The React state of `App.js` relevant to persistence. -/
structure AppState where
  darkMode : Bool
  chatHistory : List FrontMsg
  pdfs : List PdfRef
  selectedSessions : List String
deriving Repr, DecidableEq

/-- The frontend operations of `App.js`, each bundling a state update with
the `localStorage` writes its `useEffect` hooks then perform. -/
inductive FrontOp where
  | toggleTheme : FrontOp
  | clearHistory : FrontOp
  | uploadSuccess : String → String → FrontOp
  | askSuccess : String → String → FrontOp
  | askFailure : String → FrontOp
  | summarizeSuccess : String → FrontOp
  | toggleDoc : String → FrontOp
deriving Repr, DecidableEq

/-- One frontend operation. `toggleTheme` flips `darkMode`, whose effect
persists the new value under `THEME_STORAGE_KEY`. `clearHistory` (the Clear
History button, App.js lines 204-211) empties chat, documents and selection
and calls `localStorage.clear()`; the chat and document persistence effects
then re-run on the emptied state, while the theme effect does not since
`darkMode` did not change. The ask/summarize/upload operations append to
chat or document state and re-persist the matching key. `toggleDoc` only
changes the selection, which is never persisted. -/
def applyOp (s : AppState × LocalStorage) (op : FrontOp) :
    AppState × LocalStorage :=
  match op with
  | .toggleTheme =>
      let st := { s.1 with darkMode := !s.1.darkMode }
      (st, setItem s.2 THEME_STORAGE_KEY (.themeVal st.darkMode))
  | .clearHistory =>
      let st := { s.1 with chatHistory := [], pdfs := [], selectedSessions := [] }
      (st, setItem (setItem clearAll "chatHistory" (.chatVal [])) "pdfs" (.pdfsVal []))
  | .uploadSuccess name sid =>
      let st := { s.1 with pdfs := s.1.pdfs ++ [⟨name, sid⟩] }
      (st, setItem s.2 "pdfs" (.pdfsVal st.pdfs))
  | .askSuccess q a =>
      let st := { s.1 with chatHistory := s.1.chatHistory ++ [⟨"user", q⟩, ⟨"bot", a⟩] }
      (st, setItem s.2 "chatHistory" (.chatVal st.chatHistory))
  | .askFailure q =>
      let st := { s.1 with chatHistory :=
        s.1.chatHistory ++ [⟨"user", q⟩, ⟨"bot", "Error getting answer."⟩] }
      (st, setItem s.2 "chatHistory" (.chatVal st.chatHistory))
  | .summarizeSuccess t =>
      let st := { s.1 with chatHistory := s.1.chatHistory ++ [⟨"bot", t⟩] }
      (st, setItem s.2 "chatHistory" (.chatVal st.chatHistory))
  | .toggleDoc sid =>
      let st := { s.1 with selectedSessions :=
        if sid ∈ s.1.selectedSessions then
          s.1.selectedSessions.filter (fun x => x != sid)
        else s.1.selectedSessions ++ [sid] }
      (st, s.2)

/-- A sequence of frontend operations. -/
def runOps (s : AppState × LocalStorage) (ops : List FrontOp) :
    AppState × LocalStorage :=
  ops.foldl applyOp s

/-- C1: on every exit path of the `/upload` handler that reaches the
`try`/`catch`/`finally` (upstream success, upstream failure, timeout, or an
exception thrown mid-handler), `fs.unlink` is issued on the stored file's
path; the outcome of the unlink never changes the response sent to the
client; a deletion error other than `ENOENT` is logged as a warning, while
an `ENOENT` deletion error is silently ignored. -/
theorem upload_temp_file_always_deleted
    (dir p : String) (sess : Sess) (t : TryOutcome) (e : Option String)
    (h : insideUploadDir dir p = true) :
    p ∈ (uploadHandler dir ⟨some p⟩ sess t e).unlinked
      ∧ (uploadHandler dir ⟨some p⟩ sess t e).response
          = (uploadHandler dir ⟨some p⟩ sess t none).response
      ∧ (∀ c, e = some c → c ≠ "ENOENT" →
          (uploadHandler dir ⟨some p⟩ sess t e).warnings
            = ["[/upload] Failed to delete file: " ++ c])
      ∧ (e = some "ENOENT" → (uploadHandler dir ⟨some p⟩ sess t e).warnings = []) := by
  cases t <;> cases e <;> simp_all [uploadHandler]

/-- Witness for C1: a concrete upload whose upstream call times out and whose
cleanup hits a permission error still has the unlink issued on its file. -/
theorem upload_temp_file_always_deleted_witness :
    "/srv/uploads/123-report.pdf"
        ∈ (uploadHandler "/srv/uploads" ⟨some "/srv/uploads/123-report.pdf"⟩
            ⟨none, []⟩ (.fail .timeout) (some "EACCES")).unlinked :=
  (upload_temp_file_always_deleted "/srv/uploads" "/srv/uploads/123-report.pdf"
    ⟨none, []⟩ (.fail .timeout) (some "EACCES") (by decide)).1

/-- C7: an `/upload` request whose stored file resolves to an absolute path
outside the configured upload directory is answered with 400
`"Invalid file path."` and no upstream call is made. -/
theorem upload_rejects_outside_path
    (dir p : String) (sess : Sess) (t : TryOutcome) (e : Option String)
    (h : insideUploadDir dir p = false) :
    (uploadHandler dir ⟨some p⟩ sess t e).response.status = 400
      ∧ (uploadHandler dir ⟨some p⟩ sess t e).response.body
          = [("error", "Invalid file path.")]
      ∧ (uploadHandler dir ⟨some p⟩ sess t e).upstreamCalled = false := by
  simp [uploadHandler, h]

/-- Witness for C7: a crafted filename resolving to `/etc/passwd` is rejected
with 400 and no forwarding. -/
theorem upload_rejects_outside_path_witness :
    (uploadHandler "/srv/uploads" ⟨some "/etc/passwd"⟩ ⟨none, []⟩
        (.ok ⟨"m", "s"⟩) none).response.status = 400
      ∧ (uploadHandler "/srv/uploads" ⟨some "/etc/passwd"⟩ ⟨none, []⟩
          (.ok ⟨"m", "s"⟩) none).upstreamCalled = false :=
  ⟨(upload_rejects_outside_path "/srv/uploads" "/etc/passwd" ⟨none, []⟩
      (.ok ⟨"m", "s"⟩) none (by decide)).1,
   (upload_rejects_outside_path "/srv/uploads" "/etc/passwd" ⟨none, []⟩
      (.ok ⟨"m", "s"⟩) none (by decide)).2.2⟩

/-- C8: when the upstream call of `/upload` succeeds, the handler stores the
upstream-issued `session_id` in the caller's session, resets that session's
chat history to empty, and the 200 response body carries that `session_id`. -/
theorem upload_success_binds_session
    (dir p : String) (sess : Sess) (d : UploadData) (e : Option String)
    (h : insideUploadDir dir p = true) :
    (uploadHandler dir ⟨some p⟩ sess (.ok d) e).session.currentSessionId
        = some d.session_id
      ∧ (uploadHandler dir ⟨some p⟩ sess (.ok d) e).session.chatHistory = []
      ∧ (uploadHandler dir ⟨some p⟩ sess (.ok d) e).response.status = 200
      ∧ ("session_id", d.session_id)
          ∈ (uploadHandler dir ⟨some p⟩ sess (.ok d) e).response.body := by
  simp [uploadHandler, h]

/-- Witness for C8: a concrete successful upload binds the upstream session id
`"sess-42"` to the caller's session and returns it in the body. -/
theorem upload_success_binds_session_witness :
    (uploadHandler "/srv/uploads" ⟨some "/srv/uploads/7-a.pdf"⟩
        ⟨some "old", [⟨"user", "hi"⟩]⟩ (.ok ⟨"File processed", "sess-42"⟩)
        none).session.currentSessionId = some "sess-42" :=
  (upload_success_binds_session "/srv/uploads" "/srv/uploads/7-a.pdf"
    ⟨some "old", [⟨"user", "hi"⟩]⟩ ⟨"File processed", "sess-42"⟩ none (by decide)).1

/-- C2: an `/ask` request with a missing or empty `question`, or a missing or
empty `session_ids` list, is answered 400 with the error message naming the
failing field, and no upstream HTTP call is made. -/
theorem ask_validation_no_upstream
    (req : AskReq) (u : Upstream (List (String × String)))
    (h : questionFalsy req.question = true ∨ idsMissing req.session_ids = true) :
    (askHandler req u).response.status = 400
      ∧ (askHandler req u).upstreamCalled = false
      ∧ (questionFalsy req.question = true →
          (askHandler req u).response.body = [("error", "Question is required.")])
      ∧ (questionFalsy req.question = false → idsMissing req.session_ids = true →
          (askHandler req u).response.body
            = [("error", "At least one document (session_id) is required.")]) := by
  cases hq : questionFalsy req.question <;>
    cases hi : idsMissing req.session_ids <;>
      simp_all [askHandler]

/-- Witness for C2: a concrete `/ask` with an empty question is answered 400
with the question-specific message and no upstream call, even though the
upstream would have answered. -/
theorem ask_validation_no_upstream_witness :
    (askHandler ⟨some "", some ["sess-1"]⟩ (.ok [("answer", "42")])).response.status = 400
      ∧ (askHandler ⟨some "", some ["sess-1"]⟩
          (.ok [("answer", "42")])).upstreamCalled = false :=
  ⟨(ask_validation_no_upstream ⟨some "", some ["sess-1"]⟩ (.ok [("answer", "42")])
      (Or.inl (by decide))).1,
   (ask_validation_no_upstream ⟨some "", some ["sess-1"]⟩ (.ok [("answer", "42")])
      (Or.inl (by decide))).2.1⟩

/-- C4: `/compare` with fewer than two identifiers (including an absent list)
is answered 400 with no upstream call; with two or more identifiers the
payload is forwarded and, on upstream success, the response relays the
upstream `comparison` field to the client. -/
theorem compare_contract
    (ids : Option (List String)) (u : Upstream (List (String × String))) :
    (idsFewerThanTwo ids = true →
        (compareHandler ids u).response.status = 400
          ∧ (compareHandler ids u).upstreamCalled = false)
      ∧ (idsFewerThanTwo ids = false →
          (compareHandler ids u).upstreamCalled = true
            ∧ (compareHandler ids u).forwardedIds = ids
            ∧ ∀ data, u = .ok data →
                (compareHandler ids u).response.status = 200
                  ∧ (compareHandler ids u).response.body.lookup "comparison"
                      = data.lookup "comparison") := by
  cases h : idsFewerThanTwo ids <;> cases u <;> simp_all [compareHandler]

/-- Witness for C4: one identifier is rejected with 400; two identifiers are
forwarded and the upstream `comparison` value reaches the client. -/
theorem compare_contract_witness :
    (compareHandler (some ["a"]) (.ok [("comparison", "diff")])).response.status = 400
      ∧ (compareHandler (some ["a", "b"])
          (.ok [("comparison", "diff")])).response.status = 200
      ∧ (compareHandler (some ["a", "b"])
          (.ok [("comparison", "diff")])).response.body.lookup "comparison"
            = some "diff" :=
  ⟨((compare_contract (some ["a"]) (.ok [("comparison", "diff")])).1 (by decide)).1,
   (((compare_contract (some ["a", "b"]) (.ok [("comparison", "diff")])).2
        (by decide)).2.2 [("comparison", "diff")] rfl).1,
   ((((compare_contract (some ["a", "b"]) (.ok [("comparison", "diff")])).2
        (by decide)).2.2 [("comparison", "diff")] rfl).2).trans (by decide)⟩

/-- C5: `/clear-history` empties the chat history of the calling cookie's
session only — every other cookie's session is untouched, and even the
caller's bound upstream session id is kept — and responds
`200 {message: "History cleared"}`. -/
theorem clear_history_isolates_sessions
    (store : SessionStore) (caller other : String) (h : other ≠ caller) :
    (clearHistoryHandler store caller).1 other = store other
      ∧ ((clearHistoryHandler store caller).1 caller).chatHistory = []
      ∧ ((clearHistoryHandler store caller).1 caller).currentSessionId
          = (store caller).currentSessionId
      ∧ (clearHistoryHandler store caller).2.status = 200
      ∧ (clearHistoryHandler store caller).2.body = [("message", "History cleared")] := by
  refine ⟨?_, ?_, ?_, rfl, rfl⟩ <;> simp [clearHistoryHandler, h]

/-- Witness for C5: with every session holding one message, `"alice"`
clearing her history leaves `"bob"`'s session exactly as it was. -/
theorem clear_history_isolates_sessions_witness :
    (clearHistoryHandler (fun _ => ⟨some "s", [⟨"user", "q"⟩]⟩) "alice").1 "bob"
        = ⟨some "s", [⟨"user", "q"⟩]⟩ :=
  (clear_history_isolates_sessions (fun _ => ⟨some "s", [⟨"user", "q"⟩]⟩)
    "alice" "bob" (by decide)).1

/-- C6 counterexample: with the `/ask` limiter (60s window, 20 requests), a
client who exhausted the window at its start and retries at 30s into it is
answered 429 whose `Retry-After` is 60 — the full configured window — while
the remaining window is 30 seconds, so the header is not computed from the
remaining window. -/
theorem retry_after_ignores_remaining_window :
    (limiterStep askLimiterCfg (some ⟨20, 60000⟩) 30000).2.status = some 429
      ∧ (limiterStep askLimiterCfg (some ⟨20, 60000⟩) 30000).2.retryAfterHeader
          = some 60
      ∧ remainingWindowSeconds ⟨20, 60000⟩ 30000 = 30
      ∧ (limiterStep askLimiterCfg (some ⟨20, 60000⟩) 30000).2.retryAfterHeader
          ≠ some (remainingWindowSeconds ⟨20, 60000⟩ 30000) := by
  decide

/-- C6 (amended): once a client's count within the fixed window exceeds the
configured maximum, `buildLimiter`'s handler answers 429 with a
`Retry-After` header computed from the configured window length in seconds
(rounded up), a JSON body naming the limited operation through the
configured message together with `error` and `retryAfter` fields, the
standard rate-limit headers, and no legacy X-RateLimit-* headers. -/
theorem limiter_429_contract
    (cfg : LimiterConfig) (st : Option ClientWindow) (now : Nat)
    (h : cfg.max < (refreshWindow cfg st now).hits + 1) :
    (limiterStep cfg st now).2.status = some 429
      ∧ (limiterStep cfg st now).2.retryAfterHeader = some (ceilSeconds cfg.windowMs)
      ∧ (limiterStep cfg st now).2.bodyError = some "Too Many Requests"
      ∧ (limiterStep cfg st now).2.bodyMessage = some cfg.message
      ∧ (limiterStep cfg st now).2.bodyRetryAfter = some (ceilSeconds cfg.windowMs)
      ∧ (limiterStep cfg st now).2.standardHeadersSent = true
      ∧ (limiterStep cfg st now).2.legacyHeadersSent = false := by
  unfold limiterStep
  rw [if_neg (Nat.not_le.mpr h)]
  exact ⟨rfl, rfl, rfl, rfl, rfl, rfl, rfl⟩

/-- Witness for C6 (amended): the 21st `/ask` of a window is answered 429
with `Retry-After: 60` and the ask limiter's message. -/
theorem limiter_429_contract_witness :
    (limiterStep askLimiterCfg (some ⟨20, 60000⟩) 0).2.status = some 429
      ∧ (limiterStep askLimiterCfg (some ⟨20, 60000⟩) 0).2.bodyMessage
          = some "Query limit reached. You may ask up to 20 questions per minute." :=
  ⟨(limiter_429_contract askLimiterCfg (some ⟨20, 60000⟩) 0 (by decide)).1,
   (limiter_429_contract askLimiterCfg (some ⟨20, 60000⟩) 0 (by decide)).2.2.2.1⟩

/-- C3: the conflicted `/upload` copy relays the upstream error body verbatim
to the client — an upstream failure whose response body is the string
`"upstream stack trace"` yields a 500 whose `details` field is exactly that
body, contradicting the never-relay policy. -/
theorem conflicted_upload_leaks_upstream_body :
    (conflictedUploadErrorResponse (.upstreamBody "upstream stack trace")).status = 500
      ∧ ("details", "upstream stack trace")
          ∈ (conflictedUploadErrorResponse (.upstreamBody "upstream stack trace")).body := by
  decide

/-- C9 counterexample: a validated `/ask` whose upstream call fails answers
500 yet leaves the user question appended to the caller's previously empty
chat history — a failed request does not append "neither entry". -/
theorem failed_ask_still_appends_user_entry :
    (askHandlerWithHistory ⟨some "q1", some ["s1"]⟩ ⟨some "s1", []⟩
        (.failure "connect ECONNREFUSED")).response.status = 500
      ∧ (askHandlerWithHistory ⟨some "q1", some ["s1"]⟩ ⟨some "s1", []⟩
          (.failure "connect ECONNREFUSED")).session.chatHistory
            = [⟨"user", "q1"⟩]
      ∧ (askHandlerWithHistory ⟨some "q1", some ["s1"]⟩ ⟨some "s1", []⟩
          (.failure "connect ECONNREFUSED")).session.chatHistory
            ≠ ([] : List Msg) := by
  decide

/-- C9 (amended): for a validated `/ask` in the session-history copy, a
successful request appends exactly two entries to the caller's chat history
— the user question then the assistant answer, in that order — while a
failed request appends exactly one entry, the user question pushed before
the upstream call, and never an assistant entry. -/
theorem ask_history_append_order
    (req : AskReq) (sess : Sess)
    (hq : questionFalsy req.question = false)
    (hi : idsMissing req.session_ids = false) :
    (∀ d, (askHandlerWithHistory req sess (.ok d)).session.chatHistory
          = sess.chatHistory
              ++ [⟨"user", req.question.getD ""⟩, ⟨"assistant", d.answer⟩]
        ∧ (askHandlerWithHistory req sess (.ok d)).response.status = 200)
      ∧ (∀ e, (askHandlerWithHistory req sess (.failure e)).session.chatHistory
            = sess.chatHistory ++ [⟨"user", req.question.getD ""⟩]
          ∧ (askHandlerWithHistory req sess (.failure e)).response.status = 500) := by
  simp [askHandlerWithHistory, hq, hi]

/-- Witness for C9 (amended): a concrete successful ask appends user then
assistant, in that order, to an empty history. -/
theorem ask_history_append_order_witness :
    (askHandlerWithHistory ⟨some "q1", some ["s1"]⟩ ⟨some "s1", []⟩
        (.ok ⟨"a1"⟩)).session.chatHistory
      = [⟨"user", "q1"⟩, ⟨"assistant", "a1"⟩] := by
  have h := (ask_history_append_order ⟨some "q1", some ["s1"]⟩ ⟨some "s1", []⟩
    (by decide) (by decide)).1 ⟨"a1"⟩
  exact h.1

/-- C10 counterexample: starting from a state whose persisted theme is dark,
the Clear History action — which does not toggle the theme — leaves
`localStorage` without any value under the theme key, so the persisted theme
preference is not unchanged. -/
theorem clear_history_erases_persisted_theme :
    getItem (setItem clearAll THEME_STORAGE_KEY (.themeVal true)) THEME_STORAGE_KEY
        = some (.themeVal true)
      ∧ getItem (applyOp (⟨true, [], [], []⟩,
            setItem clearAll THEME_STORAGE_KEY (.themeVal true))
          FrontOp.clearHistory).2 THEME_STORAGE_KEY = none := by
  constructor
  · rfl
  · rfl

/-- C10 (amended): the persisted theme value is unchanged by every sequence
of frontend operations that neither toggles the theme nor performs Clear
History; Clear History itself wipes all of client-local storage, leaving no
persisted theme value (chat and document keys are immediately re-persisted
as empty, the theme key is not). -/
theorem theme_persists_without_clear
    (s : AppState × LocalStorage) (ops : List FrontOp)
    (h : ∀ op ∈ ops, op ≠ FrontOp.toggleTheme ∧ op ≠ FrontOp.clearHistory) :
    getItem (runOps s ops).2 THEME_STORAGE_KEY = getItem s.2 THEME_STORAGE_KEY
      ∧ ∀ s', getItem (applyOp s' FrontOp.clearHistory).2 THEME_STORAGE_KEY = none := by
  refine ⟨?_, fun s' => rfl⟩
  induction ops generalizing s with
  | nil => rfl
  | cons op rest ih =>
      have hop := h op (List.mem_cons_self op rest)
      have hrest : ∀ o ∈ rest, o ≠ FrontOp.toggleTheme ∧ o ≠ FrontOp.clearHistory :=
        fun o ho => h o (List.mem_cons_of_mem op ho)
      have hstep : getItem (applyOp s op).2 THEME_STORAGE_KEY
          = getItem s.2 THEME_STORAGE_KEY := by
        cases op with
        | toggleTheme => exact absurd rfl hop.1
        | clearHistory => exact absurd rfl hop.2
        | uploadSuccess n sid => simp [applyOp, getItem, setItem, THEME_STORAGE_KEY]
        | askSuccess q a => simp [applyOp, getItem, setItem, THEME_STORAGE_KEY]
        | askFailure q => simp [applyOp, getItem, setItem, THEME_STORAGE_KEY]
        | summarizeSuccess t => simp [applyOp, getItem, setItem, THEME_STORAGE_KEY]
        | toggleDoc sid => rfl
      calc getItem (runOps (applyOp s op) rest).2 THEME_STORAGE_KEY
          = getItem (applyOp s op).2 THEME_STORAGE_KEY := ih (applyOp s op) hrest
        _ = getItem s.2 THEME_STORAGE_KEY := hstep

/-- Witness for C10 (amended): an upload followed by a chat round leaves the
persisted dark-theme value in place. -/
theorem theme_persists_without_clear_witness :
    getItem (runOps (⟨true, [], [], []⟩,
        setItem clearAll THEME_STORAGE_KEY (.themeVal true))
        [FrontOp.uploadSuccess "report.pdf" "s1", FrontOp.askSuccess "q" "a"]).2
      THEME_STORAGE_KEY = some (.themeVal true) := by
  have h := (theme_persists_without_clear
    (⟨true, [], [], []⟩, setItem clearAll THEME_STORAGE_KEY (.themeVal true))
    [FrontOp.uploadSuccess "report.pdf" "s1", FrontOp.askSuccess "q" "a"]
    (by decide)).1
  rw [h]
  rfl

end PdfQaBot
